import Mathlib

/-!
A shallow embedding of a fitness-tracker CRUD service (source files
`models.py` and `app.py`): four entity tables (users, workouts, exercises,
meals) related by foreign keys with cascade deletion, and one handler per
HTTP endpoint.  The store is modelled as lists of rows in insertion order,
with SQLite's per-table autoincrement counters kept explicitly.  SQL `Float`
columns carry no arithmetic anywhere in the service, so their values are
modelled as opaque integers; `Date` and `DateTime` values likewise as
natural numbers.  Handlers that mutate state return the response paired
with the post-state; a raised `HTTPException` or store error leaves the
store unchanged (the failed transaction is rolled back, never committed).
-/

namespace FitnessTracker

/-- Row of the `users` table (`models.py`, class `User`): `email` carries a
UNIQUE constraint, `google_id` a UNIQUE constraint that SQL applies only to
non-NULL values, and `created_at` is set by the server at insertion. -/
structure User where
  id : Nat
  name : String
  email : String
  google_id : Option String
  created_at : Nat
deriving DecidableEq, Repr

/-- Row of the `workouts` table (`models.py`, class `Workout`): `user_id`
is a foreign key into `users`; `distance_km` and `avg_pace` are nullable. -/
structure Workout where
  id : Nat
  user_id : Nat
  type : String
  duration_min : Int
  distance_km : Option Int
  avg_pace : Option Int
  date : Nat
  is_starred : Bool
deriving DecidableEq, Repr

/-- Row of the `exercises` table (`models.py`, class `Exercise`):
`workout_id` is a foreign key into `workouts`. -/
structure Exercise where
  id : Nat
  workout_id : Nat
  name : String
  sets : Int
  reps : Int
  weight : Int
deriving DecidableEq, Repr

/-- Row of the `meals` table (`models.py`, class `Meal`): `user_id` is a
foreign key into `users`. -/
structure Meal where
  id : Nat
  user_id : Nat
  name : String
  calories : Int
  protein : Int
  carbs : Int
  fat : Int
  date : Nat
deriving DecidableEq, Repr

/-- The persistent store: the four tables in insertion order, plus the
autoincrement counter SQLite keeps per table for primary-key assignment. -/
structure DB where
  users : List User := []
  workouts : List Workout := []
  exercises : List Exercise := []
  meals : List Meal := []
  next_user_id : Nat := 1
  next_workout_id : Nat := 1
  next_exercise_id : Nat := 1
  next_meal_id : Nat := 1
deriving DecidableEq, Repr

/-- A failed handler outcome: `notFound` is an `HTTPException` with status
404, `badRequest` one with status 400, and `integrityError` is a store
constraint violation raised at `db.commit()` that no handler catches, which
the framework surfaces as a generic 500 server error. -/
inductive ApiError where
  | notFound (detail : String)
  | badRequest (detail : String)
  | integrityError
deriving DecidableEq, Repr

/-- Whether a failure is a 400-class response (an explicit
`HTTPException(status_code=400, ...)` raised by a handler). -/
def ApiError.is400 : ApiError → Bool
  | .badRequest _ => true
  | _ => false

/-- Python truthiness of an `Optional[int]` query parameter: both `None`
and `0` are falsy, so `if user_id:` in the list handlers skips the filter
for either. -/
def pyTruthy : Option Nat → Bool
  | none => false
  | some n => n != 0

/-- POST /users request body (`UserCreate` in `app.py`). -/
structure UserCreate where
  name : String
  email : String
  google_id : Option String := none
deriving DecidableEq, Repr

/-- POST /workouts request body (`WorkoutCreate` in `app.py`). -/
structure WorkoutCreate where
  user_id : Nat
  type : String
  duration_min : Int
  distance_km : Option Int := none
  avg_pace : Option Int := none
  date : Nat
  is_starred : Bool := false
deriving DecidableEq, Repr

/-- PATCH /workouts body (`WorkoutUpdate` in `app.py`): for each field,
`none` means the caller omitted it, in which case
`model_dump(exclude_unset=True)` excludes it and the handler leaves the
column untouched.  For the nullable columns `distance_km` and `avg_pace` a
supplied value may itself be NULL (`some none`).  Supplying an explicit
NULL for a NOT NULL column can never yield a successful response (the
store rejects it at commit), so such requests are outside the modelled
update surface. -/
structure WorkoutUpdate where
  type : Option String := none
  duration_min : Option Int := none
  distance_km : Option (Option Int) := none
  avg_pace : Option (Option Int) := none
  date : Option Nat := none
  is_starred : Option Bool := none
deriving DecidableEq, Repr

/-- POST /exercises request body (`ExerciseCreate` in `app.py`). -/
structure ExerciseCreate where
  workout_id : Nat
  name : String
  sets : Int
  reps : Int
  weight : Int
deriving DecidableEq, Repr

/-- POST /meals request body (`MealCreate` in `app.py`). -/
structure MealCreate where
  user_id : Nat
  name : String
  calories : Int
  protein : Int
  carbs : Int
  fat : Int
  date : Nat
deriving DecidableEq, Repr

/-- POST /users (`app.py`, `create_user`): the handler rejects an already
registered email with an explicit 400; it performs no check on
`google_id`, so a collision with an existing non-NULL `google_id` is first
detected by the store's UNIQUE constraint at `db.commit()` and raised as
an uncaught `IntegrityError`.  `now` is the server clock backing the
`created_at` column default. -/
def create_user (db : DB) (req : UserCreate) (now : Nat) :
    Except ApiError User × DB :=
  match db.users.find? (fun u => u.email == req.email) with
  | some _ => (.error (.badRequest "Email already registered"), db)
  | none =>
    if req.google_id.isSome &&
        db.users.any (fun u => u.google_id == req.google_id) then
      (.error .integrityError, db)
    else
      let u : User :=
        { id := db.next_user_id, name := req.name, email := req.email,
          google_id := req.google_id, created_at := now }
      (.ok u,
       { db with users := db.users ++ [u],
                 next_user_id := db.next_user_id + 1 })

/-- GET /users (`app.py`, `get_users`): offset/limit pagination with the
endpoint defaults `skip=0`, `limit=100`. -/
def get_users (db : DB) (skip : Nat := 0) (limit : Nat := 100) : List User :=
  (db.users.drop skip).take limit

/-- GET /users/\x7buser_id\x7d (`app.py`, `get_user`). -/
def get_user (db : DB) (user_id : Nat) : Except ApiError User :=
  match db.users.find? (fun u => u.id == user_id) with
  | none => .error (.notFound "User not found")
  | some u => .ok u

/-- DELETE /users/\x7buser_id\x7d (`app.py`, `delete_user`): deleting the
user cascades (`models.py`, `cascade="all, delete-orphan"`) to every
workout and meal owned by the user and, transitively, to every exercise of
each deleted workout. -/
def delete_user (db : DB) (user_id : Nat) : Except ApiError Unit × DB :=
  match db.users.find? (fun u => u.id == user_id) with
  | none => (.error (.notFound "User not found"), db)
  | some _ =>
    (.ok (),
     { db with
       users := db.users.filter (fun u => u.id != user_id),
       workouts := db.workouts.filter (fun w => w.user_id != user_id),
       exercises := db.exercises.filter (fun e =>
         !(db.workouts.any (fun w =>
           w.user_id == user_id && w.id == e.workout_id))),
       meals := db.meals.filter (fun m => m.user_id != user_id) })

/-- POST /workouts (`app.py`, `create_workout`): verifies the referenced
user exists before insertion, answering 404 otherwise. -/
def create_workout (db : DB) (req : WorkoutCreate) :
    Except ApiError Workout × DB :=
  match db.users.find? (fun u => u.id == req.user_id) with
  | none => (.error (.notFound "User not found"), db)
  | some _ =>
    let w : Workout :=
      { id := db.next_workout_id, user_id := req.user_id, type := req.type,
        duration_min := req.duration_min, distance_km := req.distance_km,
        avg_pace := req.avg_pace, date := req.date,
        is_starred := req.is_starred }
    (.ok w,
     { db with workouts := db.workouts ++ [w],
               next_workout_id := db.next_workout_id + 1 })

/-- GET /workouts (`app.py`, `get_workouts`): optional equality filter on
`user_id` guarded by Python truthiness (`if user_id:`), then offset/limit
pagination. -/
def get_workouts (db : DB) (user_id : Option Nat := none)
    (skip : Nat := 0) (limit : Nat := 100) : List Workout :=
  let query := db.workouts
  let query :=
    if pyTruthy user_id then
      query.filter (fun w => w.user_id == user_id.getD 0)
    else query
  (query.drop skip).take limit

/-- GET /workouts/\x7bworkout_id\x7d (`app.py`, `get_workout`). -/
def get_workout (db : DB) (workout_id : Nat) : Except ApiError Workout :=
  match db.workouts.find? (fun w => w.id == workout_id) with
  | none => .error (.notFound "Workout not found")
  | some w => .ok w

/-- Apply `model_dump(exclude_unset=True)` followed by per-field `setattr`:
every supplied field overwrites the column, every omitted field keeps its
prior value.  The update surface does not include `id` or `user_id`. -/
def applyWorkoutUpdate (w : Workout) (upd : WorkoutUpdate) : Workout :=
  { w with
    type := upd.type.getD w.type
    duration_min := upd.duration_min.getD w.duration_min
    distance_km := upd.distance_km.getD w.distance_km
    avg_pace := upd.avg_pace.getD w.avg_pace
    date := upd.date.getD w.date
    is_starred := upd.is_starred.getD w.is_starred }

/-- Replace the first row matching the predicate: the handler mutates in
place the single object returned by `.first()`. -/
def updateFirst (p : α → Bool) (a : α) : List α → List α
  | [] => []
  | x :: xs => if p x then a :: xs else x :: updateFirst p a xs

/-- PATCH /workouts/\x7bworkout_id\x7d (`app.py`, `update_workout`):
404 when the row is absent, otherwise the partial update is applied to the
stored row and the updated row is returned. -/
def update_workout (db : DB) (workout_id : Nat) (upd : WorkoutUpdate) :
    Except ApiError Workout × DB :=
  match db.workouts.find? (fun w => w.id == workout_id) with
  | none => (.error (.notFound "Workout not found"), db)
  | some w =>
    let w' := applyWorkoutUpdate w upd
    (.ok w',
     { db with
       workouts := updateFirst (fun x => x.id == workout_id) w' db.workouts })

/-- DELETE /workouts/\x7bworkout_id\x7d (`app.py`, `delete_workout`):
cascades to the workout's exercises. -/
def delete_workout (db : DB) (workout_id : Nat) : Except ApiError Unit × DB :=
  match db.workouts.find? (fun w => w.id == workout_id) with
  | none => (.error (.notFound "Workout not found"), db)
  | some _ =>
    (.ok (),
     { db with
       workouts := db.workouts.filter (fun w => w.id != workout_id),
       exercises := db.exercises.filter (fun e =>
         e.workout_id != workout_id) })

/-- POST /exercises (`app.py`, `create_exercise`): verifies the referenced
workout exists before insertion, answering 404 otherwise. -/
def create_exercise (db : DB) (req : ExerciseCreate) :
    Except ApiError Exercise × DB :=
  match db.workouts.find? (fun w => w.id == req.workout_id) with
  | none => (.error (.notFound "Workout not found"), db)
  | some _ =>
    let e : Exercise :=
      { id := db.next_exercise_id, workout_id := req.workout_id,
        name := req.name, sets := req.sets, reps := req.reps,
        weight := req.weight }
    (.ok e,
     { db with exercises := db.exercises ++ [e],
               next_exercise_id := db.next_exercise_id + 1 })

/-- GET /exercises (`app.py`, `get_exercises`): optional truthiness-guarded
equality filter on `workout_id`, then offset/limit pagination. -/
def get_exercises (db : DB) (workout_id : Option Nat := none)
    (skip : Nat := 0) (limit : Nat := 100) : List Exercise :=
  let query := db.exercises
  let query :=
    if pyTruthy workout_id then
      query.filter (fun e => e.workout_id == workout_id.getD 0)
    else query
  (query.drop skip).take limit

/-- DELETE /exercises/\x7bexercise_id\x7d (`app.py`, `delete_exercise`). -/
def delete_exercise (db : DB) (exercise_id : Nat) :
    Except ApiError Unit × DB :=
  match db.exercises.find? (fun e => e.id == exercise_id) with
  | none => (.error (.notFound "Exercise not found"), db)
  | some _ =>
    (.ok (),
     { db with exercises := db.exercises.filter (fun e =>
         e.id != exercise_id) })

/-- POST /meals (`app.py`, `create_meal`): verifies the referenced user
exists before insertion, answering 404 otherwise. -/
def create_meal (db : DB) (req : MealCreate) : Except ApiError Meal × DB :=
  match db.users.find? (fun u => u.id == req.user_id) with
  | none => (.error (.notFound "User not found"), db)
  | some _ =>
    let m : Meal :=
      { id := db.next_meal_id, user_id := req.user_id, name := req.name,
        calories := req.calories, protein := req.protein,
        carbs := req.carbs, fat := req.fat, date := req.date }
    (.ok m,
     { db with meals := db.meals ++ [m],
               next_meal_id := db.next_meal_id + 1 })

/-- GET /meals (`app.py`, `get_meals`): optional truthiness-guarded
equality filter on `user_id`, then offset/limit pagination. -/
def get_meals (db : DB) (user_id : Option Nat := none)
    (skip : Nat := 0) (limit : Nat := 100) : List Meal :=
  let query := db.meals
  let query :=
    if pyTruthy user_id then
      query.filter (fun m => m.user_id == user_id.getD 0)
    else query
  (query.drop skip).take limit

/-- GET /meals/\x7bmeal_id\x7d (`app.py`, `get_meal`). -/
def get_meal (db : DB) (meal_id : Nat) : Except ApiError Meal :=
  match db.meals.find? (fun m => m.id == meal_id) with
  | none => .error (.notFound "Meal not found")
  | some m => .ok m

/-- DELETE /meals/\x7bmeal_id\x7d (`app.py`, `delete_meal`). -/
def delete_meal (db : DB) (meal_id : Nat) : Except ApiError Unit × DB :=
  match db.meals.find? (fun m => m.id == meal_id) with
  | none => (.error (.notFound "Meal not found"), db)
  | some _ =>
    (.ok (),
     { db with meals := db.meals.filter (fun m => m.id != meal_id) })

/-- Referential integrity of a store state: no foreign key dangles.  Every
workout and meal references an existing user and every exercise an
existing workout. -/
def DB.NoOrphans (db : DB) : Prop :=
  (∀ w ∈ db.workouts, ∃ u ∈ db.users, u.id = w.user_id) ∧
  (∀ e ∈ db.exercises, ∃ w ∈ db.workouts, w.id = e.workout_id) ∧
  (∀ m ∈ db.meals, ∃ u ∈ db.users, u.id = m.user_id)

instance (db : DB) : Decidable db.NoOrphans := by
  unfold DB.NoOrphans
  infer_instance

instance {ε α} [DecidableEq ε] [DecidableEq α] : DecidableEq (Except ε α) :=
  fun a b =>
    match a, b with
    | .ok x, .ok y =>
      if h : x = y then .isTrue (by rw [h])
      else .isFalse (fun hc => h (Except.ok.inj hc))
    | .ok _, .error _ => .isFalse (fun hc => Except.noConfusion hc)
    | .error _, .ok _ => .isFalse (fun hc => Except.noConfusion hc)
    | .error x, .error y =>
      if h : x = y then .isTrue (by rw [h])
      else .isFalse (fun hc => h (Except.error.inj hc))

/-! Concrete store states used to exercise the handlers: two users, each
owning one workout, one exercise inside that workout, and one meal. -/

/-- Sample user Ann, with a linked external login. -/
def annUser : User :=
  { id := 1, name := "Ann", email := "ann@x.com", google_id := some "g-ann",
    created_at := 0 }

/-- Sample user Bob, without an external login. -/
def bobUser : User :=
  { id := 2, name := "Bob", email := "bob@x.com", google_id := none,
    created_at := 0 }

/-- Sample workout owned by Ann. -/
def annRun : Workout :=
  { id := 1, user_id := 1, type := "run", duration_min := 30,
    distance_km := some 5, avg_pace := none, date := 20240101,
    is_starred := false }

/-- Sample workout owned by Bob. -/
def bobLift : Workout :=
  { id := 2, user_id := 2, type := "lift", duration_min := 45,
    distance_km := none, avg_pace := none, date := 20240102,
    is_starred := true }

/-- Sample exercise inside Ann's workout. -/
def annPushup : Exercise :=
  { id := 1, workout_id := 1, name := "pushup", sets := 3, reps := 10,
    weight := 0 }

/-- Sample exercise inside Bob's workout. -/
def bobSquat : Exercise :=
  { id := 2, workout_id := 2, name := "squat", sets := 5, reps := 5,
    weight := 100 }

/-- Sample meal logged by Ann. -/
def annOats : Meal :=
  { id := 1, user_id := 1, name := "oats", calories := 300, protein := 10,
    carbs := 50, fat := 5, date := 20240101 }

/-- Sample meal logged by Bob. -/
def bobRice : Meal :=
  { id := 2, user_id := 2, name := "rice", calories := 400, protein := 8,
    carbs := 80, fat := 2, date := 20240102 }

/-- A populated sample store with all foreign keys valid. -/
def sampleDB : DB :=
  { users := [annUser, bobUser], workouts := [annRun, bobLift],
    exercises := [annPushup, bobSquat], meals := [annOats, bobRice],
    next_user_id := 3, next_workout_id := 3, next_exercise_id := 3,
    next_meal_id := 3 }

/-! Helper lemmas about `List.find?` and `updateFirst`. -/

/-- With duplicate-free primary keys, looking a member row up by its own id
finds exactly that row. -/
theorem find?_id_of_nodup (l : List User) (u : User)
    (hu : u ∈ l) (hnd : (l.map User.id).Nodup) :
    l.find? (fun x => x.id == u.id) = some u := by
  induction l with
  | nil => cases hu
  | cons x xs ih =>
    simp only [List.map_cons, List.nodup_cons] at hnd
    rcases List.mem_cons.mp hu with rfl | hu'
    · exact List.find?_cons_of_pos _ (by simp)
    · have hxu : ¬(x.id == u.id) = true := by
        simp only [beq_iff_eq]
        intro h
        exact hnd.1 (h ▸ List.mem_map_of_mem User.id hu')
      rw [List.find?_cons_of_neg (p := fun y => y.id == u.id) xs hxu]
      exact ih hu' hnd.2

/-- After replacing the first matching row with a row that still matches,
lookup returns the replacement. -/
theorem find?_updateFirst (p : α → Bool) (a b : α) (l : List α)
    (hfind : l.find? p = some b) (ha : p a = true) :
    (updateFirst p a l).find? p = some a := by
  induction l with
  | nil => simp [List.find?] at hfind
  | cons x xs ih =>
    by_cases hx : p x = true
    · rw [updateFirst, if_pos hx]
      exact List.find?_cons_of_pos _ ha
    · rw [List.find?_cons_of_neg _ hx] at hfind
      rw [updateFirst, if_neg hx, List.find?_cons_of_neg _ hx]
      exact ih hfind

/-- Replacing the first matching row leaves any projection of the table
unchanged, provided the replacement agrees with the replaced row on that
projection. -/
theorem map_updateFirst (l : List α) (p : α → Bool) (a : α) (f : α → β)
    (h : ∀ b, l.find? p = some b → f a = f b) :
    (updateFirst p a l).map f = l.map f := by
  induction l with
  | nil => rfl
  | cons x xs ih =>
    by_cases hx : p x = true
    · have hax := h x (List.find?_cons_of_pos _ hx)
      rw [updateFirst, if_pos hx]
      simp [hax]
    · rw [updateFirst, if_neg hx]
      simp only [List.map_cons]
      rw [ih]
      intro b hb
      exact h b (by rw [List.find?_cons_of_neg _ hx]; exact hb)

/-- C6: for each of the three filtered list endpoints, supplying the
parent-id filter with value 0 yields exactly the same result as supplying
no filter at all, because `if user_id:` treats 0 as falsy. -/
theorem filter_zero_is_no_filter (db : DB) (skip limit : Nat) :
    get_workouts db (some 0) skip limit = get_workouts db none skip limit ∧
    get_exercises db (some 0) skip limit = get_exercises db none skip limit ∧
    get_meals db (some 0) skip limit = get_meals db none skip limit :=
  ⟨rfl, rfl, rfl⟩

/-- C2: creating a Workout, Exercise, or Meal whose referenced parent id
matches no stored parent row fails with a 404 not-found response and
leaves the store unchanged, so no row is inserted. -/
theorem create_missing_parent_404 (db : DB)
    (wreq : WorkoutCreate) (ereq : ExerciseCreate) (mreq : MealCreate)
    (hw : ∀ u ∈ db.users, u.id ≠ wreq.user_id)
    (he : ∀ w ∈ db.workouts, w.id ≠ ereq.workout_id)
    (hm : ∀ u ∈ db.users, u.id ≠ mreq.user_id) :
    create_workout db wreq = (.error (.notFound "User not found"), db) ∧
    create_exercise db ereq = (.error (.notFound "Workout not found"), db) ∧
    create_meal db mreq = (.error (.notFound "User not found"), db) := by
  have hw404 : db.users.find? (fun u => u.id == wreq.user_id) = none := by
    rw [List.find?_eq_none]
    intro u hu
    simpa using hw u hu
  have he404 : db.workouts.find? (fun w => w.id == ereq.workout_id) = none := by
    rw [List.find?_eq_none]
    intro w hwmem
    simpa using he w hwmem
  have hm404 : db.users.find? (fun u => u.id == mreq.user_id) = none := by
    rw [List.find?_eq_none]
    intro u hu
    simpa using hm u hu
  refine ⟨?_, ?_, ?_⟩
  · simp [create_workout, hw404]
  · simp [create_exercise, he404]
  · simp [create_meal, hm404]

/-- C2 witness: against the sample store, creating a workout for user 9, an
exercise for workout 9, and a meal for user 9 each answers 404 and leaves
the store as it was. -/
theorem create_missing_parent_404_witness :
    create_workout sampleDB
        { user_id := 9, type := "row", duration_min := 10, date := 20240103 } =
      (.error (.notFound "User not found"), sampleDB) ∧
    create_exercise sampleDB
        { workout_id := 9, name := "curl", sets := 3, reps := 12, weight := 20 } =
      (.error (.notFound "Workout not found"), sampleDB) ∧
    create_meal sampleDB
        { user_id := 9, name := "eggs", calories := 200, protein := 12,
          carbs := 1, fat := 15, date := 20240103 } =
      (.error (.notFound "User not found"), sampleDB) :=
  create_missing_parent_404 sampleDB _ _ _
    (by decide) (by decide) (by decide)

/-- C8: list endpoints paginate by offset and limit: the page holds at most
`limit` rows, equals the stable (insertion) ordering with the first `skip`
rows dropped, is empty rather than an error when `skip` is at or beyond
the number of matching rows, and the endpoint defaults are `skip=0`,
`limit=100`. -/
theorem pagination_contract (db : DB) (uid : Option Nat) (skip limit : Nat) :
    (get_users db skip limit).length ≤ limit ∧
    get_users db skip limit = (db.users.drop skip).take limit ∧
    (db.users.length ≤ skip → get_users db skip limit = []) ∧
    get_users db = get_users db 0 100 ∧
    (get_workouts db uid skip limit).length ≤ limit ∧
    ((if pyTruthy uid then
        db.workouts.filter (fun w => w.user_id == uid.getD 0)
      else db.workouts).length ≤ skip →
      get_workouts db uid skip limit = []) ∧
    get_workouts db uid = get_workouts db uid 0 100 := by
  refine ⟨List.length_take_le _ _, rfl, ?_, rfl, List.length_take_le _ _, ?_, rfl⟩
  · intro h
    simp [get_users, List.drop_eq_nil_of_le h]
  · intro h
    simp only [get_workouts]
    rw [List.drop_eq_nil_of_le h, List.take_nil]

/-- C8 witness: against the sample store (two rows per table), a page of
size 1 after skipping 1 row, a skip past the end, and the defaults all
behave as stated. -/
theorem pagination_contract_witness :
    (get_users sampleDB 1 1).length ≤ 1 ∧
    get_users sampleDB 1 1 = (sampleDB.users.drop 1).take 1 ∧
    (sampleDB.users.length ≤ 1 → get_users sampleDB 1 1 = []) ∧
    get_users sampleDB = get_users sampleDB 0 100 ∧
    (get_workouts sampleDB (some 2) 1 1).length ≤ 1 ∧
    ((if pyTruthy (some 2) then
        sampleDB.workouts.filter (fun w => w.user_id == (some 2 : Option Nat).getD 0)
      else sampleDB.workouts).length ≤ 1 →
      get_workouts sampleDB (some 2) 1 1 = []) ∧
    get_workouts sampleDB (some 2) = get_workouts sampleDB (some 2) 0 100 :=
  pagination_contract sampleDB (some 2) 1 1

/-- C1: when deleting a user succeeds on a store with no dangling foreign
keys, the post-state contains no workout or meal owned by that user, no
exercise belonging to any workout that was owned by that user, the user
row itself is gone, and no dangling foreign key was introduced: the
cascade is transitive and complete. -/
theorem delete_user_cascades (db : DB) (uid : Nat)
    (hno : db.NoOrphans)
    (hok : (delete_user db uid).1 = .ok ()) :
    (∀ w ∈ (delete_user db uid).2.workouts, w.user_id ≠ uid) ∧
    (∀ m ∈ (delete_user db uid).2.meals, m.user_id ≠ uid) ∧
    (∀ e ∈ (delete_user db uid).2.exercises,
      ∀ w ∈ db.workouts, w.id = e.workout_id → w.user_id ≠ uid) ∧
    (∀ u ∈ (delete_user db uid).2.users, u.id ≠ uid) ∧
    (delete_user db uid).2.NoOrphans := by
  obtain ⟨hw0, he0, hm0⟩ := hno
  cases hfind : db.users.find? (fun u => u.id == uid) with
  | none => simp [delete_user, hfind] at hok
  | some u0 =>
    simp only [delete_user, hfind]
    refine ⟨?_, ?_, ?_, ?_, ?_, ?_, ?_⟩
    · intro w hw
      rw [List.mem_filter] at hw
      simpa using hw.2
    · intro m hm
      rw [List.mem_filter] at hm
      simpa using hm.2
    · intro e he w hw hid huid
      rw [List.mem_filter] at he
      have := he.2
      simp only [Bool.not_eq_eq_eq_not, Bool.not_true, List.any_eq_false] at this
      have hcontra := this w hw
      simp [huid, hid] at hcontra
    · intro u hu
      rw [List.mem_filter] at hu
      simpa using hu.2
    · intro w hw
      rw [List.mem_filter] at hw
      obtain ⟨u, hu, huid⟩ := hw0 w hw.1
      refine ⟨u, List.mem_filter.mpr ⟨hu, ?_⟩, huid⟩
      have hwne : w.user_id ≠ uid := by simpa using hw.2
      simp [huid, hwne]
    · intro e he
      rw [List.mem_filter] at he
      obtain ⟨w, hw, hid⟩ := he0 e he.1
      have hany := he.2
      simp only [Bool.not_eq_eq_eq_not, Bool.not_true, List.any_eq_false] at hany
      have hwne : w.user_id ≠ uid := by
        intro hcontra
        have := hany w hw
        simp [hcontra, hid] at this
      refine ⟨w, List.mem_filter.mpr ⟨hw, by simp [hwne]⟩, hid⟩
    · intro m hm
      rw [List.mem_filter] at hm
      obtain ⟨u, hu, huid⟩ := hm0 m hm.1
      have hmne : m.user_id ≠ uid := by simpa using hm.2
      refine ⟨u, List.mem_filter.mpr ⟨hu, ?_⟩, huid⟩
      simp [huid, hmne]

/-- C1 witness: deleting user 1 from the sample store removes Ann, her
workout, that workout's exercise, and her meal, and the remaining rows all
reference surviving parents. -/
theorem delete_user_cascades_witness :
    (∀ w ∈ (delete_user sampleDB 1).2.workouts, w.user_id ≠ 1) ∧
    (∀ m ∈ (delete_user sampleDB 1).2.meals, m.user_id ≠ 1) ∧
    (∀ e ∈ (delete_user sampleDB 1).2.exercises,
      ∀ w ∈ sampleDB.workouts, w.id = e.workout_id → w.user_id ≠ 1) ∧
    (∀ u ∈ (delete_user sampleDB 1).2.users, u.id ≠ 1) ∧
    (delete_user sampleDB 1).2.NoOrphans :=
  delete_user_cascades sampleDB 1 (by decide) (by decide)

/-- C3: creating a user whose email is already stored fails with the
explicit 400 duplicate-email response and inserts nothing: the store is
unchanged, the previously stored user with that email is still retrievable
by id, and the number of user rows carrying that email stays at one. -/
theorem create_user_duplicate_email (db : DB) (req : UserCreate) (now : Nat)
    (u : User) (hu : u ∈ db.users) (hue : u.email = req.email)
    (hnd : (db.users.map User.id).Nodup)
    (hcount : db.users.countP (fun x => x.email == req.email) = 1) :
    (create_user db req now).1 =
      .error (.badRequest "Email already registered") ∧
    (create_user db req now).2 = db ∧
    get_user (create_user db req now).2 u.id = .ok u ∧
    (create_user db req now).2.users.countP
      (fun x => x.email == req.email) = 1 := by
  have hsome : (db.users.find? (fun x => x.email == req.email)).isSome := by
    rw [List.find?_isSome]
    exact ⟨u, hu, by simp [hue]⟩
  obtain ⟨v, hv⟩ := Option.isSome_iff_exists.mp hsome
  have hdb : create_user db req now =
      (.error (.badRequest "Email already registered"), db) := by
    simp [create_user, hv]
  refine ⟨by rw [hdb], by rw [hdb], ?_, by rw [hdb]; exact hcount⟩
  rw [hdb]
  simp only [get_user]
  rw [find?_id_of_nodup db.users u hu hnd]

/-- C3 witness: re-registering Ann's email against the sample store answers
400, leaves the store unchanged with Ann retrievable, and exactly one row
with that email remains. -/
theorem create_user_duplicate_email_witness :
    (create_user sampleDB
        { name := "Ann2", email := "ann@x.com", google_id := none } 7).1 =
      .error (.badRequest "Email already registered") ∧
    (create_user sampleDB
        { name := "Ann2", email := "ann@x.com", google_id := none } 7).2 =
      sampleDB ∧
    get_user (create_user sampleDB
        { name := "Ann2", email := "ann@x.com", google_id := none } 7).2
      annUser.id = .ok annUser ∧
    (create_user sampleDB
        { name := "Ann2", email := "ann@x.com", google_id := none } 7).2.users.countP
      (fun x => x.email == "ann@x.com") = 1 :=
  create_user_duplicate_email sampleDB
    { name := "Ann2", email := "ann@x.com", google_id := none } 7
    annUser (by decide) (by decide) (by decide) (by decide)

/-- C4: a partial update of a stored workout succeeds, the updated row is
what a subsequent get of that workout returns, and field by field the
updated row carries the supplied value where the caller supplied one and
the prior value where the caller omitted the field. -/
theorem update_workout_partial (db : DB) (wid : Nat) (upd : WorkoutUpdate)
    (w : Workout)
    (hfind : db.workouts.find? (fun x => x.id == wid) = some w) :
    ∃ w', (update_workout db wid upd).1 = .ok w' ∧
      get_workout (update_workout db wid upd).2 wid = .ok w' ∧
      w'.type = upd.type.getD w.type ∧
      w'.duration_min = upd.duration_min.getD w.duration_min ∧
      w'.distance_km = upd.distance_km.getD w.distance_km ∧
      w'.avg_pace = upd.avg_pace.getD w.avg_pace ∧
      w'.date = upd.date.getD w.date ∧
      w'.is_starred = upd.is_starred.getD w.is_starred := by
  refine ⟨applyWorkoutUpdate w upd, ?_, ?_, rfl, rfl, rfl, rfl, rfl, rfl⟩
  · simp [update_workout, hfind]
  · have hid : ((fun x : Workout => x.id == wid) (applyWorkoutUpdate w upd)) = true := by
      have := List.find?_some hfind
      simpa [applyWorkoutUpdate] using this
    simp only [update_workout, hfind, get_workout]
    rw [find?_updateFirst (fun x => x.id == wid) (applyWorkoutUpdate w upd)
      w db.workouts hfind hid]

/-- C4 witness: updating workout 1 of the sample store with a new duration
and a cleared distance changes exactly those fields; type, pace, date, and
star flag keep their prior values, as the subsequent get shows. -/
theorem update_workout_partial_witness :
    ∃ w', (update_workout sampleDB 1
        { duration_min := some 40, distance_km := some none }).1 = .ok w' ∧
      get_workout (update_workout sampleDB 1
        { duration_min := some 40, distance_km := some none }).2 1 = .ok w' ∧
      w'.type = (({ duration_min := some 40, distance_km := some none } :
        WorkoutUpdate)).type.getD annRun.type ∧
      w'.duration_min = (({ duration_min := some 40, distance_km := some none } :
        WorkoutUpdate)).duration_min.getD annRun.duration_min ∧
      w'.distance_km = (({ duration_min := some 40, distance_km := some none } :
        WorkoutUpdate)).distance_km.getD annRun.distance_km ∧
      w'.avg_pace = (({ duration_min := some 40, distance_km := some none } :
        WorkoutUpdate)).avg_pace.getD annRun.avg_pace ∧
      w'.date = (({ duration_min := some 40, distance_km := some none } :
        WorkoutUpdate)).date.getD annRun.date ∧
      w'.is_starred = (({ duration_min := some 40, distance_km := some none } :
        WorkoutUpdate)).is_starred.getD annRun.is_starred :=
  update_workout_partial sampleDB 1
    { duration_min := some 40, distance_km := some none } annRun (by decide)

/-- C9: a workout update, whether it finds its row or not, never changes
the id or the owning user of any stored workout: the update surface does
not expose `id` or `user_id`, so a workout cannot be reassigned to a
different user. -/
theorem update_workout_preserves_owner (db : DB) (wid : Nat)
    (upd : WorkoutUpdate) :
    (update_workout db wid upd).2.workouts.map (fun w => (w.id, w.user_id)) =
      db.workouts.map (fun w => (w.id, w.user_id)) := by
  cases hfind : db.workouts.find? (fun x => x.id == wid) with
  | none => simp [update_workout, hfind]
  | some w =>
    simp only [update_workout, hfind]
    apply map_updateFirst
    intro b hb
    rw [hfind] at hb
    cases hb
    rfl

/-- C5 counterexample: creating a user with a fresh email but Ann's
`google_id` does not produce a 400-class DuplicateError response: the
handler performs no google_id check, so the store's UNIQUE constraint
fires at commit as an uncaught integrity error (a generic 500, not a
400 with an explicit message); no row is inserted. -/
theorem create_user_duplicate_google_id_counterexample :
    (create_user sampleDB
        { name := "Cy", email := "cy@x.com", google_id := some "g-ann" } 0).1 =
      .error .integrityError ∧
    ApiError.integrityError.is400 = false ∧
    (create_user sampleDB
        { name := "Cy", email := "cy@x.com", google_id := some "g-ann" } 0).2 =
      sampleDB := by
  refine ⟨rfl, rfl, rfl⟩

/-- C5 amended: creating a user whose `google_id` equals the `google_id` of
an already-stored user (and whose email is fresh, so the handler's email
check passes) fails with a store-level uniqueness violation that surfaces
as a generic server error rather than a 400-class DuplicateError with an
explicit message; no row is inserted and the store is unchanged. -/
theorem create_user_duplicate_google_id (db : DB) (req : UserCreate)
    (now : Nat) (g : String) (hg : req.google_id = some g)
    (hemail : ∀ u ∈ db.users, u.email ≠ req.email)
    (u : User) (hu : u ∈ db.users) (hug : u.google_id = some g) :
    create_user db req now = (.error .integrityError, db) ∧
    ApiError.integrityError.is400 = false := by
  have hfind : db.users.find? (fun x => x.email == req.email) = none := by
    rw [List.find?_eq_none]
    intro x hx
    simpa using hemail x hx
  have hany : db.users.any (fun x => x.google_id == req.google_id) = true := by
    rw [List.any_eq_true]
    exact ⟨u, hu, by simp [hug, hg]⟩
  refine ⟨?_, rfl⟩
  simp [create_user, hfind, hany, hg]
  exact ⟨u, hu, hug⟩

/-- C5 amended witness: the fresh-email, duplicate-google_id request
against the sample store hits the uncaught store error and changes
nothing. -/
theorem create_user_duplicate_google_id_witness :
    create_user sampleDB
        { name := "Cy", email := "cy@x.com", google_id := some "g-ann" } 0 =
      (.error .integrityError, sampleDB) ∧
    ApiError.integrityError.is400 = false :=
  create_user_duplicate_google_id sampleDB
    { name := "Cy", email := "cy@x.com", google_id := some "g-ann" } 0
    "g-ann" rfl (by decide) annUser (by decide) (by decide)

/-- C7 counterexample: supplying the filter value 0 to the workout list of
the sample store returns rows whose foreign key differs from 0 (the
truthiness guard drops the filter), so the claim fails for parent id 0. -/
theorem list_filter_exact_counterexample :
    (get_workouts sampleDB (some 0) 0 100).all
      (fun w => w.user_id == 0) = false := by
  decide

/-- C7 amended: for every nonzero parent id supplied as a filter, each list
endpoint returns exactly the stored rows whose foreign key equals that id
(in stable order, under offset/limit pagination) and no row with a
different foreign-key value; with no filter supplied it returns the rows
across all parents.  For the filter value 0 the truthiness guard makes the
call identical to the unfiltered one. -/
theorem list_filter_exact (db : DB) (i skip limit : Nat) (hi : i ≠ 0) :
    get_workouts db (some i) skip limit =
      ((db.workouts.filter (fun w => w.user_id == i)).drop skip).take limit ∧
    (∀ w ∈ get_workouts db (some i) skip limit, w.user_id = i) ∧
    get_workouts db none skip limit = (db.workouts.drop skip).take limit ∧
    get_exercises db (some i) skip limit =
      ((db.exercises.filter (fun e => e.workout_id == i)).drop skip).take limit ∧
    (∀ e ∈ get_exercises db (some i) skip limit, e.workout_id = i) ∧
    get_exercises db none skip limit = (db.exercises.drop skip).take limit ∧
    get_meals db (some i) skip limit =
      ((db.meals.filter (fun m => m.user_id == i)).drop skip).take limit ∧
    (∀ m ∈ get_meals db (some i) skip limit, m.user_id = i) ∧
    get_meals db none skip limit = (db.meals.drop skip).take limit := by
  have ht : pyTruthy (some i) = true := by
    simpa [pyTruthy] using hi
  have hw : get_workouts db (some i) skip limit =
      ((db.workouts.filter (fun w => w.user_id == i)).drop skip).take limit := by
    simp [get_workouts, ht]
  have he : get_exercises db (some i) skip limit =
      ((db.exercises.filter (fun e => e.workout_id == i)).drop skip).take limit := by
    simp [get_exercises, ht]
  have hm : get_meals db (some i) skip limit =
      ((db.meals.filter (fun m => m.user_id == i)).drop skip).take limit := by
    simp [get_meals, ht]
  refine ⟨hw, ?_, rfl, he, ?_, rfl, hm, ?_, rfl⟩
  · intro w hwmem
    rw [hw] at hwmem
    have := List.mem_filter.mp
      (List.mem_of_mem_drop (List.mem_of_mem_take hwmem))
    simpa using this.2
  · intro e hemem
    rw [he] at hemem
    have := List.mem_filter.mp
      (List.mem_of_mem_drop (List.mem_of_mem_take hemem))
    simpa using this.2
  · intro m hmmem
    rw [hm] at hmmem
    have := List.mem_filter.mp
      (List.mem_of_mem_drop (List.mem_of_mem_take hmmem))
    simpa using this.2

/-- C7 amended witness: filtering the sample store by parent id 2 returns
exactly Bob's workout, exercise, and meal; the unfiltered calls return
both rows of each table. -/
theorem list_filter_exact_witness :
    get_workouts sampleDB (some 2) 0 100 =
      ((sampleDB.workouts.filter (fun w => w.user_id == 2)).drop 0).take 100 ∧
    (∀ w ∈ get_workouts sampleDB (some 2) 0 100, w.user_id = 2) ∧
    get_workouts sampleDB none 0 100 = (sampleDB.workouts.drop 0).take 100 ∧
    get_exercises sampleDB (some 2) 0 100 =
      ((sampleDB.exercises.filter (fun e => e.workout_id == 2)).drop 0).take 100 ∧
    (∀ e ∈ get_exercises sampleDB (some 2) 0 100, e.workout_id = 2) ∧
    get_exercises sampleDB none 0 100 = (sampleDB.exercises.drop 0).take 100 ∧
    get_meals sampleDB (some 2) 0 100 =
      ((sampleDB.meals.filter (fun m => m.user_id == 2)).drop 0).take 100 ∧
    (∀ m ∈ get_meals sampleDB (some 2) 0 100, m.user_id = 2) ∧
    get_meals sampleDB none 0 100 = (sampleDB.meals.drop 0).take 100 :=
  list_filter_exact sampleDB 2 0 100 (by decide)

/-- C10: the duplicate-email check compares emails by exact string
equality: two create-user requests whose emails are unequal as strings
(for instance differing only in letter case of the local part) both
succeed, and two user rows exist afterward. -/
theorem create_user_email_exact_match (db : DB) (r1 r2 : UserCreate)
    (now1 now2 : Nat)
    (hne : r1.email ≠ r2.email)
    (h1 : ∀ u ∈ db.users, u.email ≠ r1.email)
    (h2 : ∀ u ∈ db.users, u.email ≠ r2.email)
    (hg1 : r1.google_id = none) (hg2 : r2.google_id = none) :
    (∃ u1, (create_user db r1 now1).1 = .ok u1) ∧
    (∃ u2, (create_user (create_user db r1 now1).2 r2 now2).1 = .ok u2) ∧
    (create_user (create_user db r1 now1).2 r2 now2).2.users.length =
      db.users.length + 2 := by
  have hfind1 : db.users.find? (fun x => x.email == r1.email) = none := by
    rw [List.find?_eq_none]
    intro x hx
    simpa using h1 x hx
  have hstep1 : create_user db r1 now1 =
      (.ok { id := db.next_user_id, name := r1.name, email := r1.email,
             google_id := r1.google_id, created_at := now1 },
       { db with
         users := db.users ++
           [{ id := db.next_user_id, name := r1.name, email := r1.email,
              google_id := r1.google_id, created_at := now1 }],
         next_user_id := db.next_user_id + 1 }) := by
    simp [create_user, hfind1, hg1]
  have hfind2 : db.users.find? (fun x => x.email == r2.email) = none := by
    rw [List.find?_eq_none]
    intro x hx
    simpa using h2 x hx
  refine ⟨⟨_, by rw [hstep1]⟩, ?_, ?_⟩
  · rw [hstep1]
    refine ⟨{ id := db.next_user_id + 1, name := r2.name, email := r2.email,
              google_id := none, created_at := now2 }, ?_⟩
    simp [create_user, hfind2, hne, hg2]
  · rw [hstep1]
    simp [create_user, hfind2, hne, hg2]

/-- C10 witness: starting from the empty store, registering
`Ann@x.com` and then `ann@x.com` (same address up to letter case of the
local part) both succeed, leaving two user rows. -/
theorem create_user_email_exact_match_witness :
    (∃ u1, (create_user {} { name := "Ann", email := "Ann@x.com" } 3).1 =
      .ok u1) ∧
    (∃ u2, (create_user
        (create_user {} { name := "Ann", email := "Ann@x.com" } 3).2
        { name := "Ann", email := "ann@x.com" } 4).1 = .ok u2) ∧
    (create_user
        (create_user {} { name := "Ann", email := "Ann@x.com" } 3).2
        { name := "Ann", email := "ann@x.com" } 4).2.users.length =
      (DB.users {}).length + 2 :=
  create_user_email_exact_match {}
    { name := "Ann", email := "Ann@x.com" }
    { name := "Ann", email := "ann@x.com" } 3 4
    (by decide) (by decide) (by decide) rfl rfl

end FitnessTracker
